import Mathlib

/-!
Shallow embedding of the class router, gradebook read path and teacher edit
page of the LXP school-management repository, together with proofs about the
aggregation endpoints (attendance statistics, performance trends, historical
growth), the search/create/delete procedures and the page sanitization logic.

The JavaScript `reduce` calls that accumulate into a string-keyed object
(attendance grouped by date, submissions grouped by subject) are modelled by a
generic insertion-ordered association-list fold, `groupReduce`, for which a
filter-based characterization is proved once and instantiated twice.
Machine numbers that take part in divisions are modelled as rationals.
-/

namespace LXP

/-! ### Generic string-keyed grouping fold (models `Array.prototype.reduce`
into a plain object, whose keys keep insertion order). -/

def bumpKey {α β : Type} (key : α → String) (upd : β → α → β) (dflt : β) :
    List (String × β) → α → List (String × β)
  | [], a => [(key a, upd dflt a)]
  | (k, b) :: rest, a =>
    if k = key a then (k, upd b a) :: rest
    else (k, b) :: bumpKey key upd dflt rest a

def groupReduce {α β : Type} (key : α → String) (upd : β → α → β) (dflt : β)
    (l : List α) : List (String × β) :=
  l.foldl (bumpKey key upd dflt) []

def keysOf {α : Type} (key : α → String) (l : List α) : List String :=
  l.foldl (fun acc a => if key a ∈ acc then acc else acc ++ [key a]) []

/-! ### Shared enumerations and error taxonomy -/

inductive Status
  | ACTIVE
  | INACTIVE
  | ARCHIVED
deriving DecidableEq

inductive TRPCErrorCode
  | NOT_FOUND
  | UNAUTHORIZED
  | INTERNAL_SERVER_ERROR
deriving DecidableEq

/-- Store-level failure raised by the ORM delete when no record matches. -/
inductive StoreError
  | RecordNotFound
deriving DecidableEq

/-- JavaScript truthiness of an optional string: `undefined` and the empty
string are falsy. -/
def strTruthy (o : Option String) : Bool := o.getD "" ≠ ""

/-! ### `classRouter.getAttendanceStats` -/

inductive AttendanceStatus
  | PRESENT
  | ABSENT
  | LATE
  | EXCUSED
deriving DecidableEq

structure AttendanceRecord where
  date : String
  status : AttendanceStatus
deriving DecidableEq

/-- Body of the reduce in `getAttendanceStats`: `acc[date].total += 1;
if (record.status === PRESENT) acc[date].present += 1`. The pair is
(present, total). -/
def attendanceStep (pt : ℕ × ℕ) (r : AttendanceRecord) : ℕ × ℕ :=
  (pt.1 + (if r.status = AttendanceStatus.PRESENT then 1 else 0), pt.2 + 1)

def attendanceByDate (l : List AttendanceRecord) : List (String × (ℕ × ℕ)) :=
  groupReduce (fun r => r.date) attendanceStep (0, 0) l

/-- `trends`: per-day `(stats.present / stats.total) * 100`. -/
def attendanceTrends (l : List AttendanceRecord) : List (String × ℚ) :=
  (attendanceByDate l).map fun e => (e.1, ((e.2.1 : ℚ) / (e.2.2 : ℚ)) * 100)

/-- `averageAttendance`: mean of the per-day rates when there is at least one
day, 0 otherwise. -/
def averageAttendance (l : List AttendanceRecord) : ℚ :=
  if 0 < (attendanceTrends l).length then
    ((attendanceTrends l).map fun e => e.2).sum / ((attendanceTrends l).length : ℚ)
  else 0

def presentOn (l : List AttendanceRecord) (d : String) : ℕ :=
  ((l.filter fun r => r.date = d).filter
    fun r => r.status = AttendanceStatus.PRESENT).length

def totalOn (l : List AttendanceRecord) (d : String) : ℕ :=
  (l.filter fun r => r.date = d).length

/-- The per-day attendance rate, present/total as a percentage. -/
def dayRate (l : List AttendanceRecord) (d : String) : ℚ :=
  ((presentOn l d : ℚ) / (totalOn l d : ℚ)) * 100

/-- Alternative overall average named by the spec for contrast (C3): the
global present/total ratio over all records, as a percentage. -/
def globalPresentRatio (l : List AttendanceRecord) : ℚ :=
  (((l.filter fun r => r.status = AttendanceStatus.PRESENT).length : ℚ) /
    (l.length : ℚ)) * 100

/-- A day with three PRESENT records and one ABSENT record (C2). -/
def exOneDay : List AttendanceRecord :=
  [⟨"2024-01-01", AttendanceStatus.PRESENT⟩,
   ⟨"2024-01-01", AttendanceStatus.PRESENT⟩,
   ⟨"2024-01-01", AttendanceStatus.PRESENT⟩,
   ⟨"2024-01-01", AttendanceStatus.ABSENT⟩]

/-- Two days with different per-day totals (C3): day one has 1/1 present,
day two has 1/4 present. -/
def exTwoDays : List AttendanceRecord :=
  [⟨"2024-01-01", AttendanceStatus.PRESENT⟩,
   ⟨"2024-01-02", AttendanceStatus.PRESENT⟩,
   ⟨"2024-01-02", AttendanceStatus.ABSENT⟩,
   ⟨"2024-01-02", AttendanceStatus.ABSENT⟩,
   ⟨"2024-01-02", AttendanceStatus.ABSENT⟩]

/-! ### `classRouter.getHistoricalAnalytics` -/

structure StudentProfile where
  id : String
deriving DecidableEq

/-- The numeric value of the JavaScript conditional `record.id ? 1 : 0`:
1 when the id is set (non-empty), 0 otherwise. -/
def presenceNum (s : StudentProfile) : ℚ :=
  if s.id = "" then 0 else 1

/-- `studentGrowth` as computed by the code: note the divisor
`historicalStudents[0].id ? 1 : 1`, which is 1 in both branches. -/
def studentGrowth (l : List StudentProfile) : ℚ :=
  if 1 < l.length then
    ((presenceNum (l.getLastD ⟨""⟩) - presenceNum (l.headD ⟨""⟩)) /
      (if (l.headD ⟨""⟩).id = "" then 1 else 1)) * 100
  else 0

/-- The formula stated by claim C4: the difference of the presence values of
the last and first records, divided by the presence value of the first
record, times 100. -/
def studentGrowthClaim (l : List StudentProfile) : ℚ :=
  if 1 < l.length then
    ((presenceNum (l.getLastD ⟨""⟩) - presenceNum (l.headD ⟨""⟩)) /
      presenceNum (l.headD ⟨""⟩)) * 100
  else 0

/-- Two historical records whose first id is unset (C4). -/
def exGrowth : List StudentProfile := [⟨""⟩, ⟨"student-1"⟩]

/-! ### `classRouter.getPerformanceTrends` -/

structure Submission where
  obtainedMarks : Option ℚ
  totalMarks : Option ℚ
deriving DecidableEq

structure ClassActivity where
  createdAt : String
  subjectName : String
  submissions : List Submission
deriving DecidableEq

/-- Per-submission percentage `(sub.obtainedMarks || 0) /
(sub.totalMarks || 1) * 100`; both `null` and 0 marks fall to the default. -/
def submissionPct (s : Submission) : ℚ :=
  ((s.obtainedMarks.getD 0) /
    (match s.totalMarks with
     | none => 1
     | some t => if t = 0 then 1 else t)) * 100

/-- Per-activity mean of the submission percentages, with the
`(activity.submissions.length || 1)` guard. -/
def activityAverage (a : ClassActivity) : ℚ :=
  (a.submissions.map submissionPct).sum /
    (if a.submissions.length = 0 then 1 else (a.submissions.length : ℚ))

/-- `performanceData`: one entry per activity, keyed by creation date. -/
def performanceData (acts : List ClassActivity) : List (String × ℚ) :=
  acts.map fun a => (a.createdAt, activityAverage a)

/-- Body of the `subjectWise` reduce: `totalScore += avgScore; count += 1`. -/
def subjectStep (sc : ℚ × ℕ) (a : ClassActivity) : ℚ × ℕ :=
  (sc.1 + activityAverage a, sc.2 + 1)

def subjectWise (acts : List ClassActivity) : List (String × (ℚ × ℕ)) :=
  groupReduce (fun a => a.subjectName) subjectStep (0, 0) acts

/-- `subjectPerformance`: `totalScore / count` per subject. -/
def subjectPerformance (acts : List ClassActivity) : List (String × ℚ) :=
  (subjectWise acts).map fun e => (e.1, e.2.1 / (e.2.2 : ℚ))

/-- The quantity stated by claim C5: the mean percentage taken over all
submissions belonging to the subject, with no per-activity stage. -/
def subjectSubmissionMean (acts : List ClassActivity) (s : String) : ℚ :=
  (((((acts.filter fun a => a.subjectName = s).map
      fun a => a.submissions).flatten).map submissionPct).sum) /
    ((((acts.filter fun a => a.subjectName = s).map
      fun a => a.submissions).flatten).length : ℚ)

/-- One subject with two activities of different submission counts (C5):
one activity with a single 100% submission, one with three 0% submissions. -/
def exActs : List ClassActivity :=
  [⟨"2024-01-01", "Math", [⟨some 100, some 100⟩]⟩,
   ⟨"2024-01-02", "Math",
     [⟨some 0, some 100⟩, ⟨some 0, some 100⟩, ⟨some 0, some 100⟩]⟩]

/-! ### Class records and `classRouter.searchClasses` -/

structure TeacherEntry where
  teacherId : String
  userId : String
deriving DecidableEq

structure ClassRec where
  id : String
  name : String
  classGroupId : String
  campusId : String
  status : Status
  teachers : List TeacherEntry
deriving DecidableEq

structure SearchInput where
  classGroupId : Option String := none
  search : Option String := none
  teacherId : Option String := none
  status : Option Status := none
  campusId : Option String := none
deriving DecidableEq

def lowerChars (s : String) : List Char := s.data.map Char.toLower

/-- Naive check that `pat` starts the list `s`. -/
def startsWithSeq : List Char → List Char → Bool
  | [], _ => true
  | _ :: _, [] => false
  | p :: ps, c :: cs => p = c && startsWithSeq ps cs

/-- Naive contiguous-substring check. -/
def containsSeq (pat : List Char) : List Char → Bool
  | [] => pat.isEmpty
  | c :: cs => startsWithSeq pat (c :: cs) || containsSeq pat cs

/-- Prisma `{ contains: search, mode: insensitive }` on the name column. -/
def containsInsensitive (name search : String) : Bool :=
  containsSeq (lowerChars search) (lowerChars name)

/-- The `where` object of `searchClasses`: the status filter defaults to
ACTIVE, every other filter is spread in only when its input is truthy. -/
def classMatches (input : SearchInput) (c : ClassRec) : Bool :=
  (c.status = input.status.getD Status.ACTIVE) &&
  (!strTruthy input.search || containsInsensitive c.name (input.search.getD "")) &&
  (!strTruthy input.classGroupId || c.classGroupId = input.classGroupId.getD "") &&
  (!strTruthy input.teacherId ||
    c.teachers.any fun t => t.teacherId = input.teacherId.getD "") &&
  (!strTruthy input.campusId || c.campusId = input.campusId.getD "")

/-- `searchClasses`: filter by the `where` object, `orderBy: name asc`. -/
def searchClasses (db : List ClassRec) (input : SearchInput) : List ClassRec :=
  (db.filter (classMatches input)).mergeSort fun a b => a.name ≤ b.name

/-- An ACTIVE class whose name contains "ath" up to case (C6). -/
def exClass : ClassRec :=
  { id := "class-1", name := "MATH 101", classGroupId := "cg-1",
    campusId := "campus-1", status := Status.ACTIVE, teachers := [] }

/-- An INACTIVE class (C6). -/
def exClassInactive : ClassRec :=
  { id := "class-2", name := "History", classGroupId := "cg-1",
    campusId := "campus-1", status := Status.INACTIVE, teachers := [] }

/-! ### `classRouter.createClass` -/

structure ClassCreateInput where
  name : String
  classGroupId : String
  campusId : String
  buildingId : Option String := none
  roomId : Option String := none
  capacity : ℕ
  status : Status
  classTutorId : Option String := none
  teacherIds : Option (List String) := none
  description : Option String := none
deriving DecidableEq

/-- The zod schema `classCreateSchema`: `min(1)` on name, classGroupId and
campusId, capacity at least 1; buildingId and roomId are plain optional
strings with no minimum length. -/
def validClassInput (i : ClassCreateInput) : Prop :=
  i.name ≠ "" ∧ i.classGroupId ≠ "" ∧ i.campusId ≠ "" ∧ 1 ≤ i.capacity

structure TeacherProfileRow where
  id : String
  userId : String
deriving DecidableEq

structure CreatedTeacherEntry where
  teacherId : String
  isClassTeacher : Bool
  status : Status
deriving DecidableEq

/-- The created class record with its connected relations. -/
structure CreatedClass where
  name : String
  classGroupId : String
  campusId : String
  buildingId : Option String
  roomId : Option String
  capacity : ℕ
  status : Status
  description : Option String
  teachers : List CreatedTeacherEntry
deriving DecidableEq

/-- `teacherProfile.findMany` over
`[...(input.teacherIds || []), input.classTutorId].filter(Boolean)`. -/
def queriedProfiles (db : List TeacherProfileRow) (i : ClassCreateInput) :
    List TeacherProfileRow :=
  db.filter fun p =>
    p.userId ∈ ((i.teacherIds.getD [] ++ i.classTutorId.toList).filter
      fun s => s ≠ "")

/-- The `Prisma.ClassCreateInput` object built by `createClass`: building and
room are connected only when the input field is truthy. -/
def createClass (profilesDb : List TeacherProfileRow) (i : ClassCreateInput) :
    CreatedClass :=
  { name := i.name
    classGroupId := i.classGroupId
    campusId := i.campusId
    buildingId := if strTruthy i.buildingId then some (i.buildingId.getD "") else none
    roomId := if strTruthy i.roomId then some (i.roomId.getD "") else none
    capacity := i.capacity
    status := i.status
    description := i.description
    teachers := (queriedProfiles profilesDb i).map fun p =>
      { teacherId := p.id,
        isClassTeacher := i.classTutorId = some p.userId,
        status := Status.ACTIVE } }

/-- A schema-valid creation input whose buildingId is the empty string (C9). -/
def exCreateInput : ClassCreateInput :=
  { name := "Class A", classGroupId := "cg-1", campusId := "campus-1",
    buildingId := some "", capacity := 30, status := Status.ACTIVE }

/-- A schema-valid creation input with a non-empty buildingId and no roomId
(C9 witness). -/
def exCreateInputB : ClassCreateInput :=
  { name := "Class B", classGroupId := "cg-1", campusId := "campus-1",
    buildingId := some "b-1", capacity := 25, status := Status.ACTIVE }

/-! ### `classRouter.deleteClass` -/

/-- The ORM delete: fails with a record-not-found store error when no class
has the given id; the router attaches no catch, so the failure surfaces. -/
def deleteClass (db : List ClassRec) (id : String) :
    Except StoreError (ClassRec × List ClassRec) :=
  match db.find? fun c => c.id = id with
  | none => Except.error StoreError.RecordNotFound
  | some c => Except.ok (c, db.eraseP fun c => c.id = id)

/-! ### `classRouter.getGradebook` and lazy gradebook initialization -/

structure AssessmentSystemRec where
  name : String
deriving DecidableEq

structure AssessmentPeriodRec where
  name : String
deriving DecidableEq

structure AcademicTermRec where
  name : String
  assessmentPeriods : List AssessmentPeriodRec
deriving DecidableEq

structure TermStructureRec where
  academicTerms : List AcademicTermRec
deriving DecidableEq

structure SubjectRecordRec where
  subjectId : String
deriving DecidableEq

structure GradeBook where
  classId : String
  assessmentSystem : Option AssessmentSystemRec
  termStructure : Option TermStructureRec
  subjectRecords : List SubjectRecordRec
deriving DecidableEq

structure ClassInfo where
  id : String
  subjectIds : List String
deriving DecidableEq

structure GradeDB where
  classes : List ClassInfo
  gradeBooks : List GradeBook
deriving DecidableEq

/-- `prisma.gradeBook.findUnique({ where: { classId } })`. -/
def findGradeBook (db : GradeDB) (classId : String) : Option GradeBook :=
  db.gradeBooks.find? fun gb => gb.classId = classId

/-- Modelled from the spec: the body of
`GradeBookService.initializeGradeBook` is not under `src/` (only its caller,
`classRouter.getGradebook`, is); per the spec it is an "initialization routine
(create gradebook + term structure + assessment-period records)" producing a
gradebook holding "an assessment system, a term structure with nested terms
and assessment periods, and per-subject records". -/
def initializeGradeBook (db : GradeDB) (classId : String) : GradeDB :=
  { db with
    gradeBooks := db.gradeBooks ++
      [{ classId := classId
         assessmentSystem := some { name := "default-assessment-system" }
         termStructure := some
           { academicTerms :=
               [{ name := "Term 1",
                  assessmentPeriods := [{ name := "Assessment Period 1" }] }] }
         subjectRecords :=
           ((db.classes.find? fun c => c.id = classId).map fun c =>
             c.subjectIds.map fun sid => { subjectId := sid }).getD [] }] }

/-- `getGradebook`, parameterized by the initialization service so that the
failed-initialization branch can be stated: read; if absent, initialize and
re-read; if still absent, NOT_FOUND. The final component counts how many
times the initialization routine ran. -/
def getGradebookWith (svc : GradeDB → String → GradeDB) (db : GradeDB)
    (classId : String) : Except TRPCErrorCode GradeBook × GradeDB × ℕ :=
  match findGradeBook db classId with
  | some gb => (Except.ok gb, db, 0)
  | none =>
    let db2 := svc db classId
    match findGradeBook db2 classId with
    | some gb => (Except.ok gb, db2, 1)
    | none => (Except.error TRPCErrorCode.NOT_FOUND, db2, 1)

def getGradebook (db : GradeDB) (classId : String) :
    Except TRPCErrorCode GradeBook × GradeDB × ℕ :=
  getGradebookWith initializeGradeBook db classId

/-! ### `classRouter.getTeacherClasses` and `classRouter.list` -/

structure SessionUser where
  id : String
deriving DecidableEq

structure Session where
  user : Option SessionUser
deriving DecidableEq

structure Ctx where
  session : Option Session
deriving DecidableEq

/-- `ctx.session?.user?.id`. -/
def sessionUserId (ctx : Ctx) : Option String :=
  (ctx.session.bind fun s => s.user).map fun u => u.id

/-- `getTeacherClasses`: `if (!userId) return []`, else the classes taught by
the user. -/
def getTeacherClasses (db : List ClassRec) (ctx : Ctx) :
    Except TRPCErrorCode (List ClassRec) :=
  if (sessionUserId ctx).getD "" = "" then Except.ok []
  else Except.ok (db.filter fun c =>
    c.teachers.any fun t => t.userId = (sessionUserId ctx).getD "")

/-- `list`: throws UNAUTHORIZED when the session is missing, else returns all
classes. -/
def listClasses (db : List ClassRec) (ctx : Ctx) :
    Except TRPCErrorCode (List ClassRec) :=
  match ctx.session with
  | none => Except.error TRPCErrorCode.UNAUTHORIZED
  | some _ => Except.ok db

/-! ### The teacher edit page -/

inductive TeacherType
  | CLASS
  | SUBJECT
deriving DecidableEq

structure TeacherProfileInfo where
  id : String
  teacherType : TeacherType
  specialization : Option String
  subjectIds : List String
  classIds : List String
  campusIds : List String
deriving DecidableEq

structure Teacher where
  id : String
  name : Option String
  email : Option String
  phoneNumber : Option String
  status : Status
  teacherProfile : Option TeacherProfileInfo
deriving DecidableEq

structure SanitizedTeacher where
  name : String
  email : String
  phoneNumber : String
  teacherType : TeacherType
  specialization : String
  campusIds : List String
  subjectIds : List String
  classIds : List String
deriving DecidableEq

/-- The `sanitizedTeacher` object: `||`-defaults for every field, falling to
the empty string, `TeacherType.CLASS`, or the empty array when the field or
the whole profile is missing. -/
def sanitizeTeacher (t : Teacher) : SanitizedTeacher :=
  { name := t.name.getD ""
    email := t.email.getD ""
    phoneNumber := t.phoneNumber.getD ""
    teacherType := (t.teacherProfile.map fun p => p.teacherType).getD TeacherType.CLASS
    specialization := ((t.teacherProfile.map fun p => p.specialization).getD none).getD ""
    campusIds := (t.teacherProfile.map fun p => p.campusIds).getD []
    subjectIds := (t.teacherProfile.map fun p => p.subjectIds).getD []
    classIds := (t.teacherProfile.map fun p => p.classIds).getD [] }

inductive RenderState
  | invalidId
  | notFound
  | success (form : SanitizedTeacher)
  | errorState (message : String)
deriving DecidableEq

/-- `EditTeacherPage`: empty-id guard, error display on a failed fetch,
not-found display on a missing teacher, else the form with the sanitized
initial data. -/
def editTeacherPage (teacherId : String)
    (fetched : Except String (Option Teacher)) : RenderState :=
  if teacherId = "" then RenderState.invalidId
  else
    match fetched with
    | Except.error msg => RenderState.errorState msg
    | Except.ok none => RenderState.notFound
    | Except.ok (some t) => RenderState.success (sanitizeTeacher t)

/-- A teacher with no profile and null identity fields (C8). -/
def exTeacher : Teacher :=
  { id := "teacher-1", name := none, email := none, phoneNumber := none,
    status := Status.ACTIVE, teacherProfile := none }

/-! ### Characterization of the grouping fold -/

theorem keysOf_append {α : Type} (key : α → String) (l : List α) (a : α) :
    keysOf key (l ++ [a]) =
      if key a ∈ keysOf key l then keysOf key l else keysOf key l ++ [key a] := by
  simp [keysOf, List.foldl_append]

theorem groupReduce_append {α β : Type} (key : α → String) (upd : β → α → β)
    (dflt : β) (l : List α) (a : α) :
    groupReduce key upd dflt (l ++ [a]) =
      bumpKey key upd dflt (groupReduce key upd dflt l) a := by
  simp [groupReduce, List.foldl_append]

theorem mem_keysOf {α : Type} (key : α → String) (l : List α) (x : String) :
    x ∈ keysOf key l ↔ ∃ a ∈ l, key a = x := by
  induction l using List.reverseRecOn with
  | nil => simp [keysOf]
  | append_singleton l a ih =>
    rw [keysOf_append]
    by_cases h : key a ∈ keysOf key l
    · rw [if_pos h]
      constructor
      · intro hx
        obtain ⟨b, hb, hkb⟩ := ih.mp hx
        exact ⟨b, by simp [hb], hkb⟩
      · rintro ⟨b, hb, hkb⟩
        rcases List.mem_append.mp hb with hb' | hb'
        · exact ih.mpr ⟨b, hb', hkb⟩
        · simp only [List.mem_singleton] at hb'
          subst hb'
          exact hkb ▸ h
    · rw [if_neg h]
      simp only [List.mem_append, List.mem_singleton, ih]
      constructor
      · rintro (⟨b, hb, hkb⟩ | rfl)
        · exact ⟨b, Or.inl hb, hkb⟩
        · exact ⟨a, Or.inr rfl, rfl⟩
      · rintro ⟨b, hb | rfl, hkb⟩
        · exact Or.inl ⟨b, hb, hkb⟩
        · exact Or.inr hkb.symm

theorem nodup_keysOf {α : Type} (key : α → String) (l : List α) :
    (keysOf key l).Nodup := by
  induction l using List.reverseRecOn with
  | nil => simp [keysOf]
  | append_singleton l a ih =>
    rw [keysOf_append]
    by_cases h : key a ∈ keysOf key l
    · simpa [h]
    · simp [h, List.nodup_append, ih]

theorem bumpKey_not_mem {α β : Type} (key : α → String) (upd : β → α → β)
    (dflt : β) (xs : List (String × β)) (a : α)
    (h : key a ∉ xs.map Prod.fst) :
    bumpKey key upd dflt xs a = xs ++ [(key a, upd dflt a)] := by
  induction xs with
  | nil => rfl
  | cons x rest ih =>
    obtain ⟨k, b⟩ := x
    simp only [List.map_cons, List.mem_cons, not_or] at h
    rw [bumpKey, if_neg (fun hk => h.1 hk.symm), ih h.2, List.cons_append]

theorem bumpKey_map_mem {α β : Type} (key : α → String) (upd : β → α → β)
    (dflt : β) (ds : List String) (F : String → β) (a : α)
    (hnd : ds.Nodup) (hmem : key a ∈ ds) :
    bumpKey key upd dflt (ds.map fun k => (k, F k)) a =
      ds.map fun k => (k, if k = key a then upd (F k) a else F k) := by
  induction ds with
  | nil => cases hmem
  | cons d rest ih =>
    rw [List.map_cons, List.map_cons, bumpKey]
    by_cases hd : d = key a
    · rw [if_pos hd, if_pos hd]
      have hrest : key a ∉ rest := hd ▸ (List.nodup_cons.mp hnd).1
      have hne : ∀ k ∈ rest, ¬ k = key a := fun k hk hkk => hrest (hkk ▸ hk)
      have : (rest.map fun k => (k, F k)) =
          rest.map fun k => (k, if k = key a then upd (F k) a else F k) := by
        refine List.map_congr_left fun k hk => ?_
        rw [if_neg (hne k hk)]
      rw [this]
    · rw [if_neg hd, if_neg hd]
      have hmem' : key a ∈ rest := by
        rcases List.mem_cons.mp hmem with h' | h'
        · exact absurd h'.symm hd
        · exact h'
      rw [ih (List.nodup_cons.mp hnd).2 hmem']

theorem groupReduce_eq {α β : Type} (key : α → String) (upd : β → α → β)
    (dflt : β) (l : List α) :
    groupReduce key upd dflt l =
      (keysOf key l).map fun k =>
        (k, (l.filter fun a => key a = k).foldl upd dflt) := by
  induction l using List.reverseRecOn with
  | nil => rfl
  | append_singleton l a ih =>
    rw [groupReduce_append, ih, keysOf_append]
    by_cases h : key a ∈ keysOf key l
    · rw [if_pos h, bumpKey_map_mem key upd dflt _ _ a (nodup_keysOf key l) h]
      refine List.map_congr_left fun k hk => ?_
      rw [List.filter_append]
      by_cases hk' : k = key a
      · subst hk'
        rw [if_pos rfl]
        simp [List.foldl_append]
      · rw [if_neg hk']
        have hak : ¬ key a = k := fun hkk => hk' hkk.symm
        have : ([a].filter fun b => key b = k) = [] := by simp [hak]
        rw [this, List.append_nil]
    · rw [if_neg h, bumpKey_not_mem key upd dflt _ a (by simpa using h),
        List.map_append]
      congr 1
      · refine List.map_congr_left fun k hk => ?_
        rw [List.filter_append]
        have : ([a].filter fun b => key b = k) = [] := by
          have : key a ≠ k := fun hkk => h (hkk ▸ hk)
          simp [this]
        rw [this, List.append_nil]
      · have hl : (l.filter fun b => key b = key a) = [] := by
          rw [List.filter_eq_nil_iff]
          intro b hb
          simp only [decide_eq_true_eq]
          exact fun hbk => h ((mem_keysOf key l (key a)).mpr ⟨b, hb, hbk⟩)
        simp [List.filter_append, hl]

theorem foldl_sum_count {α γ : Type} [AddCommMonoid γ] (f : α → γ) (l : List α)
    (s : γ) (c : ℕ) :
    l.foldl (fun sc a => (sc.1 + f a, sc.2 + 1)) (s, c) =
      (s + (l.map f).sum, c + l.length) := by
  induction l generalizing s c with
  | nil => simp
  | cons a rest ih =>
    simp only [List.foldl_cons, ih, List.map_cons, List.sum_cons,
      List.length_cons]
    rw [Prod.mk.injEq]
    exact ⟨by rw [add_assoc], by omega⟩

theorem sum_present_indicator (l : List AttendanceRecord) :
    (l.map fun r => if r.status = AttendanceStatus.PRESENT then (1 : ℕ) else 0).sum =
      (l.filter fun r => r.status = AttendanceStatus.PRESENT).length := by
  induction l with
  | nil => rfl
  | cons a rest ih =>
    by_cases h : a.status = AttendanceStatus.PRESENT <;>
      simp [h, ih, List.filter_cons, Nat.add_comm]

/-! ### Instantiations for the attendance and performance endpoints -/

theorem attendanceByDate_eq (l : List AttendanceRecord) :
    attendanceByDate l =
      (keysOf (fun r => r.date) l).map fun d => (d, (presentOn l d, totalOn l d)) := by
  rw [attendanceByDate, groupReduce_eq]
  refine List.map_congr_left fun d hd => ?_
  have hstep : attendanceStep = fun (sc : ℕ × ℕ) r =>
      (sc.1 + (if r.status = AttendanceStatus.PRESENT then 1 else 0), sc.2 + 1) := rfl
  rw [hstep, foldl_sum_count, Nat.zero_add, Nat.zero_add, sum_present_indicator]
  rfl

theorem attendanceTrends_eq (l : List AttendanceRecord) :
    attendanceTrends l = (keysOf (fun r => r.date) l).map fun d => (d, dayRate l d) := by
  rw [attendanceTrends, attendanceByDate_eq, List.map_map]
  rfl

theorem keysOf_ne_nil {α : Type} (key : α → String) (l : List α) (h : l ≠ []) :
    keysOf key l ≠ [] := by
  match l, h with
  | a :: t, _ =>
    exact List.ne_nil_of_mem ((mem_keysOf key (a :: t) (key a)).mpr
      ⟨a, List.mem_cons_self a t, rfl⟩)

theorem subjectPerformance_eq (acts : List ClassActivity) :
    subjectPerformance acts =
      (keysOf (fun a => a.subjectName) acts).map fun s =>
        (s, ((acts.filter fun a => a.subjectName = s).map activityAverage).sum /
          ((acts.filter fun a => a.subjectName = s).length : ℚ)) := by
  rw [subjectPerformance, subjectWise, groupReduce_eq, List.map_map]
  refine List.map_congr_left fun s hs => ?_
  have hstep : subjectStep = fun (sc : ℚ × ℕ) a =>
      (sc.1 + activityAverage a, sc.2 + 1) := rfl
  simp only [Function.comp, hstep, foldl_sum_count, zero_add, Nat.zero_add]

/-! ### Substring correctness for the case-insensitive name match -/

theorem startsWithSeq_iff (pat s : List Char) :
    startsWithSeq pat s = true ↔ ∃ r, s = pat ++ r := by
  induction pat generalizing s with
  | nil => simp [startsWithSeq]
  | cons p ps ih =>
    cases s with
    | nil =>
      simp only [startsWithSeq, Bool.false_eq_true, false_iff, not_exists]
      intro r h
      exact List.cons_ne_nil p (ps ++ r) h.symm
    | cons c cs =>
      rw [startsWithSeq, Bool.and_eq_true, ih]
      constructor
      · rintro ⟨hpc, r, rfl⟩
        exact ⟨r, by simp_all⟩
      · rintro ⟨r, hr⟩
        rw [List.cons_append, List.cons.injEq] at hr
        exact ⟨by simp [hr.1], r, hr.2⟩

theorem containsSeq_iff (pat s : List Char) :
    containsSeq pat s = true ↔ ∃ l r, s = l ++ pat ++ r := by
  induction s with
  | nil =>
    simp only [containsSeq, List.isEmpty_iff]
    constructor
    · rintro rfl
      exact ⟨[], [], rfl⟩
    · rintro ⟨l, r, h⟩
      rcases List.append_eq_nil.mp (List.append_eq_nil.mp h.symm).1 with ⟨-, h2⟩
      exact h2
  | cons c cs ih =>
    rw [containsSeq, Bool.or_eq_true, startsWithSeq_iff, ih]
    constructor
    · rintro (⟨r, hr⟩ | ⟨l, r, hr⟩)
      · exact ⟨[], r, by simpa using hr⟩
      · exact ⟨c :: l, r, by simp [hr]⟩
    · rintro ⟨l, r, hr⟩
      cases l with
      | nil => exact Or.inl ⟨r, by simpa using hr⟩
      | cons x xs =>
        rw [List.cons_append, List.cons_append, List.cons.injEq] at hr
        exact Or.inr ⟨xs, r, hr.2⟩

theorem mem_searchClasses (db : List ClassRec) (input : SearchInput)
    (c : ClassRec) :
    c ∈ searchClasses db input ↔ c ∈ db ∧ classMatches input c = true := by
  rw [searchClasses, (List.mergeSort_perm _ _).mem_iff, List.mem_filter]

/-! ### Concrete evaluations shared by the attendance and performance claims -/

theorem attendanceByDate_exOneDay :
    attendanceByDate exOneDay = [("2024-01-01", (3, 4))] := by decide

theorem attendanceTrends_exOneDay :
    attendanceTrends exOneDay = [("2024-01-01", 75)] := by
  rw [attendanceTrends, attendanceByDate_exOneDay]
  norm_num

theorem attendanceByDate_exTwoDays :
    attendanceByDate exTwoDays =
      [("2024-01-01", (1, 1)), ("2024-01-02", (1, 4))] := by decide

theorem averageAttendance_exTwoDays : averageAttendance exTwoDays = 125 / 2 := by
  have h : attendanceTrends exTwoDays =
      [("2024-01-01", 100), ("2024-01-02", 25)] := by
    rw [attendanceTrends, attendanceByDate_exTwoDays]
    norm_num
  rw [averageAttendance, h]
  norm_num

theorem globalPresentRatio_exTwoDays : globalPresentRatio exTwoDays = 40 := by
  have h : ((exTwoDays.filter
      fun r => r.status = AttendanceStatus.PRESENT).length : ℕ) = 2 := by decide
  have h2 : (exTwoDays.length : ℕ) = 5 := by decide
  rw [globalPresentRatio, h, h2]
  norm_num

/-! ### Claim theorems -/

/-- C2, counterexample: on a day with three PRESENT records and one ABSENT
record, `getAttendanceStats` reports an attendance rate of 75, not the 80
stated by the claim. -/
theorem c2_counterexample :
    attendanceTrends exOneDay = [("2024-01-01", 75)] ∧ (75 : ℚ) ≠ 80 :=
  ⟨attendanceTrends_exOneDay, by norm_num⟩

/-- C2 (amended): `getAttendanceStats` groups attendance records by calendar
date, each day entry counts that day present and total records, each day
attendanceRate is present/total expressed as a percentage, and a day with
three PRESENT records and one ABSENT record yields a rate of 75 percent. -/
theorem c2_attendance_rate_per_day :
    (∀ (l : List AttendanceRecord) (d : String) (p t : ℕ),
        (d, (p, t)) ∈ attendanceByDate l → p = presentOn l d ∧ t = totalOn l d) ∧
    (∀ (l : List AttendanceRecord) (d : String) (r : ℚ),
        (d, r) ∈ attendanceTrends l → r = dayRate l d) ∧
    attendanceTrends exOneDay = [("2024-01-01", 75)] := by
  refine ⟨?_, ?_, attendanceTrends_exOneDay⟩
  · intro l d p t h
    rw [attendanceByDate_eq, List.mem_map] at h
    obtain ⟨d', -, hd'⟩ := h
    rw [Prod.mk.injEq, Prod.mk.injEq] at hd'
    obtain ⟨rfl, hp, ht⟩ := hd'
    exact ⟨hp.symm, ht.symm⟩
  · intro l d r h
    rw [attendanceTrends_eq, List.mem_map] at h
    obtain ⟨d', -, hd'⟩ := h
    rw [Prod.mk.injEq] at hd'
    obtain ⟨rfl, hr⟩ := hd'
    exact hr.symm

/-- C2 witness: the grouped entry of the concrete one-day input has 3 present
out of 4 records. -/
theorem c2_attendance_rate_per_day_witness :
    3 = presentOn exOneDay "2024-01-01" ∧ 4 = totalOn exOneDay "2024-01-01" :=
  c2_attendance_rate_per_day.1 exOneDay "2024-01-01" 3 4
    (by rw [attendanceByDate_exOneDay]; exact List.mem_singleton.mpr rfl)

/-- C3: `averageAttendance` is the arithmetic mean of the per-day rates over
the distinct days having at least one record; on a concrete input with two
days of different per-day totals it equals 62.5 while the global
present/total ratio equals 40, so the two quantities differ and the function
returns the per-day mean. -/
theorem c3_average_is_mean_of_day_rates :
    (∀ l : List AttendanceRecord, l ≠ [] →
        averageAttendance l =
          ((keysOf (fun r => r.date) l).map fun d => dayRate l d).sum /
            ((keysOf (fun r => r.date) l).length : ℚ)) ∧
    averageAttendance exTwoDays = 125 / 2 ∧
    globalPresentRatio exTwoDays = 40 ∧
    averageAttendance exTwoDays ≠ globalPresentRatio exTwoDays := by
  refine ⟨?_, averageAttendance_exTwoDays, globalPresentRatio_exTwoDays, ?_⟩
  · intro l hl
    have hlen : 0 < (attendanceTrends l).length := by
      rw [attendanceTrends_eq, List.length_map]
      exact List.length_pos.mpr (keysOf_ne_nil _ l hl)
    rw [averageAttendance, if_pos hlen, attendanceTrends_eq, List.map_map,
      List.length_map]
    rfl
  · rw [averageAttendance_exTwoDays, globalPresentRatio_exTwoDays]
    norm_num

/-- C3 witness: the general mean formula applied to the concrete two-day
input. -/
theorem c3_average_is_mean_of_day_rates_witness :
    averageAttendance exTwoDays =
      ((keysOf (fun r => r.date) exTwoDays).map fun d => dayRate exTwoDays d).sum /
        ((keysOf (fun r => r.date) exTwoDays).length : ℚ) :=
  c3_average_is_mean_of_day_rates.1 exTwoDays (by decide)

/-- C4, counterexample: on two records whose first id is unset, the code
divides by the constant 1 and returns 100, while the formula stated by the
claim divides by the presence value 0 of the first record and does not yield
100. -/
theorem c4_counterexample :
    studentGrowth exGrowth = 100 ∧ studentGrowthClaim exGrowth = 0 ∧
    studentGrowth exGrowth ≠ studentGrowthClaim exGrowth := by
  have hL : exGrowth.getLastD ⟨""⟩ = ⟨"student-1"⟩ := by decide
  have hH : exGrowth.headD ⟨""⟩ = ⟨""⟩ := by decide
  have hp1 : presenceNum ⟨"student-1"⟩ = 1 := by
    rw [presenceNum, if_neg (by decide)]
  have hp0 : presenceNum ⟨""⟩ = 0 := by rw [presenceNum, if_pos rfl]
  have h1 : studentGrowth exGrowth = 100 := by
    rw [studentGrowth, if_pos (by decide : 1 < exGrowth.length), hL, hH,
      hp1, hp0, ite_self, div_one]
    norm_num
  have h2 : studentGrowthClaim exGrowth = 0 := by
    rw [studentGrowthClaim, if_pos (by decide : 1 < exGrowth.length), hL, hH,
      hp1, hp0]
    norm_num
  exact ⟨h1, h2, by rw [h1, h2]; norm_num⟩

/-- C4 (amended): with more than one record, `studentGrowth` is the
difference of the last and first records presence-as-boolean values times
100, the divisor being the constant 1 (the conditional
`historicalStudents[0].id ? 1 : 1` yields 1 in both branches, not the first
record presence value); when every id is set the metric is 0 regardless of
the true count delta; with zero or one record it is 0. -/
theorem c4_student_growth_presence :
    (∀ l : List StudentProfile, 1 < l.length →
        studentGrowth l =
          (presenceNum (l.getLastD ⟨""⟩) - presenceNum (l.headD ⟨""⟩)) * 100) ∧
    (∀ l : List StudentProfile, ¬ 1 < l.length → studentGrowth l = 0) ∧
    (∀ l : List StudentProfile, (∀ s ∈ l, s.id ≠ "") → studentGrowth l = 0) := by
  refine ⟨?_, ?_, ?_⟩
  · intro l hl
    rw [studentGrowth, if_pos hl, ite_self, div_one]
  · intro l hl
    rw [studentGrowth, if_neg hl]
  · intro l hall
    by_cases hl : 1 < l.length
    · rw [studentGrowth, if_pos hl, ite_self, div_one]
      have hne : l ≠ [] := by
        intro h
        rw [h] at hl
        exact absurd hl (by decide)
      have hhead : l.headD ⟨""⟩ ∈ l := by
        match l, hne with
        | a :: t, _ => exact List.mem_cons_self a t
      have hlast : l.getLastD ⟨""⟩ ∈ l := by
        match l, hne with
        | a :: t, _ =>
          rw [List.getLastD_eq_getLast?, List.getLast?_eq_getLast (a :: t)
            (List.cons_ne_nil a t)]
          exact List.getLast_mem (List.cons_ne_nil a t)
      rw [presenceNum, presenceNum, if_neg (hall _ hlast), if_neg (hall _ hhead)]
      norm_num
    · rw [studentGrowth, if_neg hl]

/-- C4 witness: two records with both ids set give zero growth, and the
no-record case gives 0. -/
theorem c4_student_growth_presence_witness :
    studentGrowth [⟨"student-1"⟩, ⟨"student-2"⟩] = 0 ∧
    studentGrowth ([] : List StudentProfile) = 0 :=
  ⟨c4_student_growth_presence.2.2 [⟨"student-1"⟩, ⟨"student-2"⟩] (by decide),
   c4_student_growth_presence.2.1 [] (by decide)⟩

theorem subjectWise_exActs : subjectWise exActs = [("Math", (100, 2))] := by
  norm_num [subjectWise, exActs, groupReduce, bumpKey, subjectStep,
    activityAverage, submissionPct, List.foldl_cons, List.foldl_nil]

theorem subjectPerformance_exActs :
    subjectPerformance exActs = [("Math", 50)] := by
  rw [subjectPerformance, subjectWise_exActs]
  norm_num

theorem subjectSubmissionMean_exActs :
    subjectSubmissionMean exActs "Math" = 25 := by
  norm_num [subjectSubmissionMean, exActs, submissionPct]

/-- C5, counterexample: for one subject with an activity holding a single
100 percent submission and an activity holding three 0 percent submissions,
the endpoint reports 50 (the mean of the two per-activity means), while the
mean percentage over all four submissions of the subject is 25. -/
theorem c5_counterexample :
    subjectPerformance exActs = [("Math", 50)] ∧
    subjectSubmissionMean exActs "Math" = 25 ∧ (50 : ℚ) ≠ 25 :=
  ⟨subjectPerformance_exActs, subjectSubmissionMean_exActs, by norm_num⟩

/-- C5 (amended): the subject-wise averageScore of a subject is the mean,
taken over that subject activities, of the per-activity mean percentage
score, not the mean over all submissions of the subject; on the concrete
input the endpoint returns 50 where the submission-level mean is 25. -/
theorem c5_subject_average_two_stage :
    (∀ (acts : List ClassActivity) (s : String) (v : ℚ),
        (s, v) ∈ subjectPerformance acts →
          v = ((acts.filter fun a => a.subjectName = s).map activityAverage).sum /
              ((acts.filter fun a => a.subjectName = s).length : ℚ)) ∧
    subjectPerformance exActs = [("Math", 50)] ∧
    subjectSubmissionMean exActs "Math" = 25 := by
  refine ⟨?_, subjectPerformance_exActs, subjectSubmissionMean_exActs⟩
  intro acts s v h
  rw [subjectPerformance_eq, List.mem_map] at h
  obtain ⟨s', -, hs'⟩ := h
  rw [Prod.mk.injEq] at hs'
  obtain ⟨rfl, hv⟩ := hs'
  exact hv.symm

/-- C5 witness: the two-stage formula applied to the concrete input. -/
theorem c5_subject_average_two_stage_witness :
    (50 : ℚ) =
      ((exActs.filter fun a => a.subjectName = "Math").map activityAverage).sum /
        ((exActs.filter fun a => a.subjectName = "Math").length : ℚ) :=
  c5_subject_average_two_stage.1 exActs "Math" 50
    (by rw [subjectPerformance_exActs]; exact List.mem_singleton.mpr rfl)

/-- C6: with no filters supplied, `searchClasses` returns only classes whose
status is ACTIVE; with a search string supplied, a class is returned exactly
when it is in the store, its status matches the ACTIVE default, and the
lowercased search string occurs as a contiguous substring of the lowercased
class name. -/
theorem c6_search_default_active_insensitive :
    (∀ (db : List ClassRec) (c : ClassRec),
        c ∈ searchClasses db {} → c.status = Status.ACTIVE) ∧
    (∀ (db : List ClassRec) (s : String) (c : ClassRec), s ≠ "" →
        (c ∈ searchClasses db { search := some s } ↔
          c ∈ db ∧ c.status = Status.ACTIVE ∧
            ∃ l r, lowerChars c.name = l ++ lowerChars s ++ r)) := by
  constructor
  · intro db c h
    have h' := (mem_searchClasses db {} c).mp h
    have hm := h'.2
    rw [classMatches] at hm
    simp only [strTruthy, Option.getD_none, ne_eq, Bool.and_eq_true,
      decide_eq_true_eq] at hm
    exact hm.1.1.1.1
  · intro db s c hs
    rw [mem_searchClasses, classMatches]
    simp [strTruthy, hs, containsInsensitive, containsSeq_iff, and_assoc]

/-- C6 witness: the no-filter search over a two-class store returns the
ACTIVE class, and the case-insensitive search characterization holds for the
concrete search string. -/
theorem c6_search_default_active_insensitive_witness :
    exClass.status = Status.ACTIVE ∧
    (exClass ∈ searchClasses [exClass, exClassInactive] { search := some "ath" } ↔
      exClass ∈ [exClass, exClassInactive] ∧ exClass.status = Status.ACTIVE ∧
        ∃ l r, lowerChars exClass.name = l ++ lowerChars "ath" ++ r) :=
  ⟨c6_search_default_active_insensitive.1 [exClass, exClassInactive] exClass
      ((mem_searchClasses [exClass, exClassInactive] {} exClass).mpr (by decide)),
   c6_search_default_active_insensitive.2 [exClass, exClassInactive] "ath"
      exClass (by decide)⟩

/-- C1: when no gradebook exists for the class, `getGradebook` runs the
initialization routine exactly once, re-reads, and returns on that same call
a non-null gradebook carrying the class id, an assessment system and a term
structure whose terms carry assessment periods, together with the subject
records of the class; and for any initialization service after which the
re-read still finds nothing, a NOT_FOUND error is surfaced. -/
theorem c1_lazy_gradebook_initialization :
    (∀ (db : GradeDB) (cid : String), findGradeBook db cid = none →
        (getGradebook db cid).2.2 = 1 ∧
        ∃ gb, (getGradebook db cid).1 = Except.ok gb ∧ gb.classId = cid ∧
          gb.assessmentSystem.isSome = true ∧
          gb.subjectRecords =
            ((db.classes.find? fun c => c.id = cid).map fun c =>
              c.subjectIds.map fun sid => { subjectId := sid }).getD [] ∧
          ∃ ts, gb.termStructure = some ts ∧ ts.academicTerms ≠ [] ∧
            ∀ t ∈ ts.academicTerms, t.assessmentPeriods ≠ []) ∧
    (∀ (svc : GradeDB → String → GradeDB) (db : GradeDB) (cid : String),
        findGradeBook db cid = none → findGradeBook (svc db cid) cid = none →
        (getGradebookWith svc db cid).1 =
          Except.error TRPCErrorCode.NOT_FOUND) := by
  constructor
  · intro db cid h
    have h2 : findGradeBook (initializeGradeBook db cid) cid =
        some { classId := cid
               assessmentSystem := some { name := "default-assessment-system" }
               termStructure := some
                 { academicTerms :=
                     [{ name := "Term 1",
                        assessmentPeriods := [{ name := "Assessment Period 1" }] }] }
               subjectRecords :=
                 ((db.classes.find? fun c => c.id = cid).map fun c =>
                   c.subjectIds.map fun sid => { subjectId := sid }).getD [] } := by
      rw [findGradeBook] at h ⊢
      rw [initializeGradeBook, List.find?_append, h]
      simp
    rw [getGradebook, getGradebookWith, h]
    simp only [h2]
    refine ⟨by trivial, _, rfl, rfl, rfl, rfl, _, rfl, by simp, ?_⟩
    intro t ht
    simp only [List.mem_singleton] at ht
    rw [ht]
    simp
  · intro svc db cid h h2
    rw [getGradebookWith, h]
    simp only [h2]

/-- C1 witness: reading the gradebook of a class absent from an empty store
initializes once and returns a populated gradebook, and a no-op service
leads to NOT_FOUND. -/
theorem c1_lazy_gradebook_initialization_witness :
    ((getGradebook ⟨[], []⟩ "class-1").2.2 = 1 ∧
      ∃ gb, (getGradebook ⟨[], []⟩ "class-1").1 = Except.ok gb ∧
        gb.classId = "class-1" ∧ gb.assessmentSystem.isSome = true ∧
        gb.subjectRecords =
          (((GradeDB.mk [] []).classes.find? fun c => c.id = "class-1").map fun c =>
            c.subjectIds.map fun sid => { subjectId := sid }).getD [] ∧
        ∃ ts, gb.termStructure = some ts ∧ ts.academicTerms ≠ [] ∧
          ∀ t ∈ ts.academicTerms, t.assessmentPeriods ≠ []) ∧
    (getGradebookWith (fun db _ => db) ⟨[], []⟩ "class-1").1 =
      Except.error TRPCErrorCode.NOT_FOUND :=
  ⟨c1_lazy_gradebook_initialization.1 ⟨[], []⟩ "class-1" rfl,
   c1_lazy_gradebook_initialization.2 (fun db _ => db) ⟨[], []⟩ "class-1" rfl rfl⟩

/-- C7: deleting a class id for which no record exists surfaces the
store-level record-not-found failure instead of succeeding. -/
theorem c7_delete_missing_class (db : List ClassRec) (id : String)
    (h : ∀ c ∈ db, c.id ≠ id) :
    deleteClass db id = Except.error StoreError.RecordNotFound := by
  have hf : (db.find? fun c => c.id = id) = none := by
    rw [List.find?_eq_none]
    intro c hc
    simpa using h c hc
  rw [deleteClass, hf]

/-- C7 witness: deleting an id absent from a one-class store fails with
RecordNotFound. -/
theorem c7_delete_missing_class_witness :
    deleteClass [exClass] "missing-id" = Except.error StoreError.RecordNotFound :=
  c7_delete_missing_class [exClass] "missing-id" (by decide)

/-- C8: rendering the teacher edit page for an existing teacher whose
teacherProfile is absent reaches the success state (no throw), and the form
receives empty-string defaults for specialization, empty arrays for the
campus, subject and class identifier lists, the CLASS teacher type default,
and empty-string defaults for the null identity fields. -/
theorem c8_edit_teacher_profile_defaults (t : Teacher)
    (hp : t.teacherProfile = none) (hid : t.id ≠ "") :
    editTeacherPage t.id (Except.ok (some t)) =
      RenderState.success (sanitizeTeacher t) ∧
    (sanitizeTeacher t).specialization = "" ∧
    (sanitizeTeacher t).campusIds = [] ∧
    (sanitizeTeacher t).subjectIds = [] ∧
    (sanitizeTeacher t).classIds = [] ∧
    (sanitizeTeacher t).teacherType = TeacherType.CLASS ∧
    (t.name = none → (sanitizeTeacher t).name = "") ∧
    (t.email = none → (sanitizeTeacher t).email = "") ∧
    (t.phoneNumber = none → (sanitizeTeacher t).phoneNumber = "") := by
  refine ⟨by rw [editTeacherPage, if_neg hid], ?_, ?_, ?_, ?_, ?_, ?_, ?_, ?_⟩ <;>
    simp [sanitizeTeacher, hp]
  · intro h
    rw [h]
    rfl
  · intro h
    rw [h]
    rfl
  · intro h
    rw [h]
    rfl

/-- C8 witness: the concrete profile-less teacher renders the all-default
form. -/
theorem c8_edit_teacher_profile_defaults_witness :
    editTeacherPage exTeacher.id (Except.ok (some exTeacher)) =
      RenderState.success (sanitizeTeacher exTeacher) ∧
    (sanitizeTeacher exTeacher).specialization = "" ∧
    (sanitizeTeacher exTeacher).campusIds = [] ∧
    (sanitizeTeacher exTeacher).subjectIds = [] ∧
    (sanitizeTeacher exTeacher).classIds = [] ∧
    (sanitizeTeacher exTeacher).teacherType = TeacherType.CLASS ∧
    (exTeacher.name = none → (sanitizeTeacher exTeacher).name = "") ∧
    (exTeacher.email = none → (sanitizeTeacher exTeacher).email = "") ∧
    (exTeacher.phoneNumber = none → (sanitizeTeacher exTeacher).phoneNumber = "") :=
  c8_edit_teacher_profile_defaults exTeacher rfl (by decide)

/-- C9, counterexample: the empty string passes the creation schema for
buildingId (only name, classGroupId and campusId carry a minimum length),
yet with buildingId supplied as the empty string the created record is
connected to no building, so a supplied buildingId is not always
connected. -/
theorem c9_counterexample :
    validClassInput exCreateInput ∧ exCreateInput.buildingId = some "" ∧
    (createClass [] exCreateInput).buildingId = none := by
  refine ⟨?_, rfl, by decide⟩
  refine ⟨by decide, by decide, by decide, by decide⟩

/-- C9 (amended): for every schema-valid creation input the created record is
connected to exactly the supplied classGroupId and campusId, to the supplied
buildingId and roomId when those are present and non-empty, and to no
building or room when they are omitted or empty. -/
theorem c9_create_class_relations (db : List TeacherProfileRow)
    (i : ClassCreateInput) (_hv : validClassInput i) :
    (createClass db i).classGroupId = i.classGroupId ∧
    (createClass db i).campusId = i.campusId ∧
    (∀ b, i.buildingId = some b → b ≠ "" →
      (createClass db i).buildingId = some b) ∧
    ((i.buildingId = none ∨ i.buildingId = some "") →
      (createClass db i).buildingId = none) ∧
    (∀ r, i.roomId = some r → r ≠ "" → (createClass db i).roomId = some r) ∧
    ((i.roomId = none ∨ i.roomId = some "") →
      (createClass db i).roomId = none) := by
  refine ⟨rfl, rfl, ?_, ?_, ?_, ?_⟩
  · intro b hb hbne
    rw [createClass]
    simp [strTruthy, hb, hbne]
  · rintro (hb | hb) <;> rw [createClass] <;> simp [strTruthy, hb]
  · intro r hr hrne
    rw [createClass]
    simp [strTruthy, hr, hrne]
  · rintro (hr | hr) <;> rw [createClass] <;> simp [strTruthy, hr]

/-- C9 witness: a valid input with a non-empty buildingId and no roomId is
connected to exactly that building and to no room. -/
theorem c9_create_class_relations_witness :
    (createClass [] exCreateInputB).classGroupId = "cg-1" ∧
    (createClass [] exCreateInputB).buildingId = some "b-1" ∧
    (createClass [] exCreateInputB).roomId = none := by
  have h := c9_create_class_relations [] exCreateInputB
    ⟨by decide, by decide, by decide, by decide⟩
  exact ⟨h.1, h.2.2.1 "b-1" rfl (by decide), h.2.2.2.2.2 (Or.inl rfl)⟩

/-- C10: `getTeacherClasses` returns the empty array, not an UNAUTHORIZED
error, whenever the context session carries no user id, while `list` in the
same router raises UNAUTHORIZED when the session is missing. -/
theorem c10_teacher_classes_empty_on_no_user :
    (∀ (db : List ClassRec) (ctx : Ctx), (sessionUserId ctx).getD "" = "" →
        getTeacherClasses db ctx = Except.ok [] ∧
        getTeacherClasses db ctx ≠ Except.error TRPCErrorCode.UNAUTHORIZED) ∧
    (∀ (db : List ClassRec) (ctx : Ctx), ctx.session = none →
        listClasses db ctx = Except.error TRPCErrorCode.UNAUTHORIZED) := by
  constructor
  · intro db ctx h
    rw [getTeacherClasses, if_pos h]
    exact ⟨rfl, by simp⟩
  · intro db ctx h
    rw [listClasses, h]

/-- C10 witness: a session with no user gives the empty array from
`getTeacherClasses`, and a missing session makes `list` raise
UNAUTHORIZED. -/
theorem c10_teacher_classes_empty_on_no_user_witness :
    (getTeacherClasses [exClass] ⟨some ⟨none⟩⟩ = Except.ok [] ∧
      getTeacherClasses [exClass] ⟨some ⟨none⟩⟩ ≠
        Except.error TRPCErrorCode.UNAUTHORIZED) ∧
    listClasses [exClass] ⟨none⟩ = Except.error TRPCErrorCode.UNAUTHORIZED :=
  ⟨c10_teacher_classes_empty_on_no_user.1 [exClass] ⟨some ⟨none⟩⟩ (by decide),
   c10_teacher_classes_empty_on_no_user.2 [exClass] ⟨none⟩ rfl⟩

end LXP
